import Mathlib

/-!
# Verification of the Lootloo task/puzzle/reward engine

Shallow embedding of the core operations of the Lootloo repository:

* `src/services/tasks/puzzleGenerator.js` — puzzle generation, solution
  validation and time-based scoring (`generateImagePuzzle`,
  `validateSolution`);
* `src/services/tasks/service.js` — task lifecycle and attempt recording
  (`createTask`, `getTask`, `recordAttempt`, `getGridSizeFromDifficulty`);
* `src/services/users/service.js` — reward issuance and redemption
  (`createReward`, `redeemReward`);
* `database/schema.sql` — the relational rows the services read and write.

Conventions of the embedding:

* Database rows are Lean structures, the database is lists of rows, and each
  SQL statement of the source becomes an explicit pure state transformation.
* I/O-dependent ingredients (image decoding, SHA-256 hashes, UUIDs,
  `Math.random`-based shuffling, the clock) are parameters gathered in
  `PuzzleEnv` or passed explicitly (`now`, generated codes/ids), so every
  definition stays executable.
* JSON (de)serialization of `puzzle_config` is modelled as the identity on
  the structured value.
* Thrown error objects become the `Err` inductive carried in `Except`;
  the string is the message the source throws with.
* Timestamps are integer milliseconds; JavaScript float arithmetic in the
  scoring path is modelled over `ℚ`.
-/



namespace Lootloo

/-- Error classes of `src/middleware/errorHandler.js` as used by the services;
`dbUnique` stands for a unique-constraint violation raised by PostgreSQL
(e.g. on `user_rewards.reward_code`), which is not one of the app's error
classes and propagates untranslated. -/
inductive Err where
  | validation (msg : String)
  | conflict (msg : String)
  | notFound (msg : String)
  | forbidden (msg : String)
  | gone (msg : String)
  | dbUnique (constraint : String)
deriving DecidableEq

/-- One puzzle piece as stored in `puzzle_config.pieces`:
`pieces.map(p => ({ index: p.index, hash: p.hash }))` in
`generateImagePuzzle` keeps exactly the index and the content hash. -/
structure Piece where
  index : Nat
  hash : String
deriving DecidableEq

/-- The `puzzleConfig` object built by `generateImagePuzzle`
(puzzleGenerator.js lines 109-119). `correct_solution` is an `Option` so
that the redaction `delete puzzleConfig.correct_solution` performed by
`getTask` is representable. Timestamps are milliseconds. -/
structure PuzzleConfig where
  image_url : String
  grid_size : Nat
  piece_count : Nat
  pieces : List Piece
  shuffled_order : List Nat
  difficulty_seed : String
  correct_solution : Option (List Nat)
  created_at : Int
  expires_at : Int
deriving DecidableEq

/-- The non-deterministic / I/O ingredients of `generateImagePuzzle`:
the result of `isValidImage` on the input buffer, the uuid-based S3 key,
the CDN base url, the SHA-256 hash of the extracted piece at (row, col),
the Fisher-Yates shuffle driven by `Math.random`, the result of
`calculateDifficulty`, and `Date.now()`. -/
structure PuzzleEnv where
  validImage : Bool
  imageKey : String
  cdnUrl : String
  pieceHash : Nat → Nat → String
  shuffle : List Nat → List Nat
  difficultySeed : String
  nowMs : Int

/-- The grid-size guard of `generateImagePuzzle` line 31:
`[9, 16, 25].includes(gridSize)`. -/
def gridSizeOk (gridSize : Nat) : Bool :=
  gridSize == 9 || gridSize == 16 || gridSize == 25

/-- The piece-extraction loops of `generateImagePuzzle` lines 65-92:
`for (row = 0; row < piecesPerSide; row++) for (col = 0; col < piecesPerSide;
col++)` pushes a piece with `index: row * piecesPerSide + col` and the hash
of the extracted region, in row-major order. -/
def slicePieces (pieceHash : Nat → Nat → String) (piecesPerSide : Nat) : List Piece :=
  (List.range piecesPerSide).flatMap fun row =>
    (List.range piecesPerSide).map fun col =>
      { index := row * piecesPerSide + col, hash := pieceHash row col }

/-- `PuzzleGenerator.generateImagePuzzle(imageBuffer, gridSize)`
(puzzleGenerator.js lines 28-134). Validates the grid size, then the image,
computes `piecesPerSide = Math.sqrt(gridSize)`, slices the pieces, and
assembles the `puzzleConfig` object, including `grid_size: piecesPerSide`,
`piece_count: gridSize`, `shuffled_order` from the Fisher-Yates shuffle of
`[...Array(gridSize).keys()]` and `correct_solution = pieces.map(p => p.index)`. -/
def generateImagePuzzle (env : PuzzleEnv) (gridSize : Nat) : Except Err PuzzleConfig :=
  if !gridSizeOk gridSize then
    .error (.validation "Grid size must be 9, 16, or 25")
  else if !env.validImage then
    .error (.validation "Invalid image format. Must be JPEG/PNG and < 5MB")
  else
    let piecesPerSide := Nat.sqrt gridSize
    let pieces := slicePieces env.pieceHash piecesPerSide
    .ok
      { image_url := env.cdnUrl ++ "/" ++ env.imageKey
        grid_size := piecesPerSide
        piece_count := gridSize
        pieces := pieces
        shuffled_order := env.shuffle (List.range gridSize)
        difficulty_seed := env.difficultySeed
        correct_solution := some (pieces.map Piece.index)
        created_at := env.nowMs
        expires_at := env.nowMs + 24 * 60 * 60 * 1000 }

/-- A JavaScript argument position that `validateSolution` probes with
`Array.isArray`: either an array of numbers or any non-array value. -/
inductive JsArg where
  | arr (xs : List Int)
  | nonArray
deriving DecidableEq

/-- The result object of `validateSolution`: the failure shape
(lines 158-163) carries `error` and zeroed scores, the success shape
(lines 184-190) carries `base_score` and `time_taken_seconds`. -/
structure SolutionResult where
  is_correct : Bool
  score : Int
  time_bonus : Int
  base_score : Option Int
  time_taken_seconds : Option ℚ
  error : Option String
deriving DecidableEq

/-- The time bonus computed by `validateSolution` lines 167-171:
`Math.floor(Math.max(0, (300 - timeTaken/1000) / 300) * 50)`.
The argument is the elapsed time in milliseconds. -/
def timeBonus (timeTakenMs : ℚ) : Int :=
  ⌊(max 0 ((300 - timeTakenMs / 1000) / 300)) * 50⌋

/-- `PuzzleGenerator.validateSolution(userSolution, correctSolution, timeTaken)`
(puzzleGenerator.js lines 143-196). Rejects non-arrays and length mismatches
with `ValidationError`; compares the arrays by `JSON.stringify` equality
(elementwise equality for number arrays); on mismatch returns the zero-score
failure object, on match returns `score = 100 + timeBonus`. -/
def validateSolution (userSolution correctSolution : JsArg) (timeTaken : ℚ) :
    Except Err SolutionResult :=
  match userSolution, correctSolution with
  | .arr us, .arr cs =>
    if us.length ≠ cs.length then
      .error (.validation "Solution arrays must have same length")
    else if us ≠ cs then
      .ok { is_correct := false, score := 0, time_bonus := 0, base_score := none,
            time_taken_seconds := none,
            error := some "Puzzle arrangement is incorrect" }
    else
      .ok { is_correct := true, score := 100 + timeBonus timeTaken,
            time_bonus := timeBonus timeTaken, base_score := some 100,
            time_taken_seconds := some (timeTaken / 1000), error := none }
  | _, _ => .error (.validation "Invalid solution format")

/-- The own property names of `Object.prototype`: a string-keyed read on a
plain object literal that misses every own key continues along the prototype
chain and, for these names, yields the inherited member — a function (an
object for `__proto__`), which is truthy and not a number. -/
def objectPrototypeKeys : List String :=
  ["constructor", "hasOwnProperty", "isPrototypeOf", "propertyIsEnumerable",
   "toLocaleString", "toString", "valueOf", "__proto__", "__defineGetter__",
   "__defineSetter__", "__lookupGetter__", "__lookupSetter__"]

/-- The value of the JavaScript expression `gridSizes[difficulty] || 16`:
either a number (an own entry of the table, or the default 16 when the
lookup is `undefined`), or a truthy non-numeric member inherited from
`Object.prototype`, against which `|| 16` does not fire. -/
inductive GridLookup where
  | num (n : Nat)
  | inherited (key : String)
deriving DecidableEq

/-- `TaskService.getGridSizeFromDifficulty(difficulty)` (service.js lines
634-643): `gridSizes[difficulty] || 16` on the object literal
`{easy: 9, medium: 16, hard: 25, expert: 25}`. The bracket lookup traverses
the prototype chain, so a key naming an `Object.prototype` member (e.g.
`"constructor"`, `"toString"`) returns that inherited truthy value rather
than falling back to 16; every other unknown key gives `undefined` and the
`|| 16` default. -/
def getGridSizeFromDifficulty (difficulty : String) : GridLookup :=
  match difficulty with
  | "easy" => .num 9
  | "medium" => .num 16
  | "hard" => .num 25
  | "expert" => .num 25
  | _ =>
    if difficulty ∈ objectPrototypeKeys then .inherited difficulty
    else .num 16

/-- A row of the `tasks` table (schema.sql), restricted to the columns the
verified operations read or write. `expires_at` is a millisecond timestamp. -/
structure TaskRow where
  id : String
  company_id : String
  title : String
  description : Option String
  task_type : String
  difficulty : String
  reward_type : String
  reward_value : ℚ
  reward_description : String
  image_url : Option String
  puzzle_config : Option PuzzleConfig
  status : String
  attempt_count : Nat
  conversion_count : Nat
  expires_at : Option Int
deriving DecidableEq

/-- A row of the `task_attempts` table. -/
structure AttemptRow where
  task_id : String
  user_id : String
  started_at : Int
  completed_at : Int
  time_taken_seconds : Int
  is_successful : Bool
  difficulty_multiplier : ℚ
deriving DecidableEq

/-- A row of the `user_rewards` table. -/
structure RewardRow where
  id : String
  user_id : String
  task_id : String
  reward_code : String
  reward_type : String
  reward_value : ℚ
  is_redeemed : Bool
  redeemed_at : Option Int
  expires_at : Int
deriving DecidableEq

/-- The relational state the verified operations touch. -/
structure DB where
  tasks : List TaskRow
  attempts : List AttemptRow
  rewards : List RewardRow
deriving DecidableEq

/-- `TaskService.getTask(taskId, userId)` (service.js lines 111-158),
restricted to the task row itself (the aggregate columns and the
`user_attempt` annotation joined onto the result do not interact with the
redaction). The read-through cache entry for the id, when present, is the
row cached by an earlier `createTask`/`getTask` — always the unredacted
stored row. Whatever the source of the row, lines 151-155 parse
`puzzle_config` and `delete puzzleConfig.correct_solution` before the task
is returned. -/
def getTask (db : DB) (cache : Option TaskRow) (taskId : String) :
    Except Err TaskRow :=
  let fromStore : Option TaskRow :=
    match cache with
    | some t => some t
    | none => db.tasks.find? fun t => t.id == taskId
  match fromStore with
  | none => .error (.notFound "Task not found")
  | some t =>
    match t.puzzle_config with
    | some pc => .ok { t with puzzle_config := some { pc with correct_solution := none } }
    | none => .ok t

/-- The attempt payload destructured at the top of `recordAttempt`. -/
structure AttemptData where
  is_successful : Bool
  time_taken_seconds : Int
  difficulty_multiplier : Option ℚ
deriving DecidableEq

/-- The duplicate-attempt probe of `recordAttempt` lines 507-510:
`SELECT id FROM task_attempts WHERE task_id = $1 AND user_id = $2`. -/
def hasAttempt (db : DB) (taskId userId : String) : Bool :=
  db.attempts.any fun a => a.task_id == taskId && a.user_id == userId

/-- The task lookup of `recordAttempt` lines 517-520:
`SELECT * FROM tasks WHERE id = $1 AND status = 'active'`. -/
def findActiveTask (db : DB) (taskId : String) : Option TaskRow :=
  db.tasks.find? fun t => t.id == taskId && t.status == "active"

/-- The row built by the `INSERT INTO task_attempts` of `recordAttempt`
lines 534-549, with `started_at = Date.now() - time_taken_seconds * 1000`,
`completed_at = Date.now()` and `difficulty_multiplier || 1.0` (a zero or
absent multiplier falls back to 1.0, since 0 is falsy in JavaScript). -/
def mkAttemptRow (now : Int) (taskId userId : String) (a : AttemptData) : AttemptRow :=
  { task_id := taskId
    user_id := userId
    started_at := now - a.time_taken_seconds * 1000
    completed_at := now
    time_taken_seconds := a.time_taken_seconds
    is_successful := a.is_successful
    difficulty_multiplier :=
      match a.difficulty_multiplier with
      | some m => if m = 0 then 1 else m
      | none => 1 }

/-- The counter increment on a task row: `attempt_count + 1` and
`conversion_count + 1` iff the attempt is successful. This exact update is
performed twice per recorded attempt, by two distinct pieces of the source:
the `INSERT` branch of the schema trigger function
`update_task_attempt_counts` (schema.sql, fired `AFTER INSERT ON
task_attempts` by trigger `update_task_counts`), and the application's
`UPDATE tasks SET attempt_count = attempt_count + 1, conversion_count = CASE
WHEN $1 THEN conversion_count + 1 ELSE conversion_count END WHERE id = $2`
(service.js lines 554-561). -/
def bumpTaskCounters (db : DB) (taskId : String) (isSuccessful : Bool) : DB :=
  { db with
    tasks := db.tasks.map fun t =>
      if t.id == taskId then
        { t with
          attempt_count := t.attempt_count + 1
          conversion_count :=
            if isSuccessful then t.conversion_count + 1 else t.conversion_count }
      else t }

/-- The `INSERT INTO task_attempts` statement as a state transformation,
including the schema's `AFTER INSERT` trigger `update_task_counts`
(schema.sql): within the insert's own transaction the trigger function
`update_task_attempt_counts` increments the task's `attempt_count` and, iff
`NEW.is_successful`, its `conversion_count`, so the state committed by the
insert already carries the incremented counters. -/
def insertAttempt (db : DB) (row : AttemptRow) : DB :=
  bumpTaskCounters { db with attempts := db.attempts ++ [row] }
    row.task_id row.is_successful

/-- The guard phase of `recordAttempt` (service.js lines 503-531): duplicate
attempt → `ConflictError`; no active task row → `NotFoundError`;
`task.expires_at && new Date() > new Date(task.expires_at)` → `GoneError`. -/
def recordAttemptChecks (db : DB) (now : Int) (taskId userId : String) :
    Except Err TaskRow :=
  if hasAttempt db taskId userId then
    .error (.conflict "You have already attempted this task")
  else
    match findActiveTask db taskId with
    | none => .error (.notFound "Task not found or not active")
    | some task =>
      match task.expires_at with
      | some e => if e < now then .error (.gone "Task has expired") else .ok task
      | none => .ok task

/-- `TaskService.recordAttempt(taskId, userId, attemptData)` (service.js
lines 503-574): the guards, then the attempt `INSERT` (whose schema trigger
already increments the counters), then the application's counter `UPDATE`
(lines 554-561), which repeats the same increment — two separate `query`
calls, so a successful call leaves the counters incremented twice. -/
def recordAttempt (db : DB) (now : Int) (taskId userId : String) (a : AttemptData) :
    Except Err (AttemptRow × DB) :=
  match recordAttemptChecks db now taskId userId with
  | .error err => .error err
  | .ok _task =>
    let row := mkAttemptRow now taskId userId a
    .ok (row, bumpTaskCounters (insertAttempt db row) taskId a.is_successful)

/-- The sequence of database states committed by a successful
`recordAttempt`. The attempt `INSERT` (lines 534-549) and the application's
counter `UPDATE` (lines 554-561) are separate top-level `query` calls with
no enclosing transaction (`withTransaction` is not used here), so each
commits on its own. The insert's commit already includes the schema
trigger's counter increment; the second commit applies the application's
repeated increment. -/
def recordAttemptCommits (db : DB) (now : Int) (taskId userId : String)
    (a : AttemptData) : Except Err (List DB) :=
  match recordAttemptChecks db now taskId userId with
  | .error err => .error err
  | .ok _task =>
    let row := mkAttemptRow now taskId userId a
    let afterInsert := insertAttempt db row
    let afterUpdate := bumpTaskCounters afterInsert taskId a.is_successful
    .ok [afterInsert, afterUpdate]

/-- The attempt rows of a given task. -/
def attemptsFor (db : DB) (taskId : String) : List AttemptRow :=
  db.attempts.filter fun a => a.task_id == taskId

/-- The counter invariant of the spec: every task's `attempt_count` equals
the number of its attempt rows and its `conversion_count` the number of
successful ones. -/
def countsConsistent (db : DB) : Bool :=
  db.tasks.all fun t =>
    t.attempt_count == (attemptsFor db t.id).length &&
    t.conversion_count == ((attemptsFor db t.id).filter fun a => a.is_successful).length

/-- The reward lookup of `redeemReward` (users/service.js lines 340-350):
`WHERE ur.reward_code = $1 AND ur.user_id = $2`. The joins onto `tasks`,
`users` and `company_profiles` only attach display columns; by the `ON
DELETE CASCADE` foreign keys a stored reward's task and company rows exist. -/
def findReward (db : DB) (userId rewardCode : String) : Option RewardRow :=
  db.rewards.find? fun r => r.reward_code == rewardCode && r.user_id == userId

/-- `UserService.redeemReward(userId, rewardCode)` (users/service.js lines
338-398): `NotFoundError` when the (code, user) lookup is empty,
`ConflictError` when the reward is already redeemed, `GoneError` when
`new Date() > new Date(reward.expires_at)`, otherwise
`UPDATE user_rewards SET is_redeemed = true, redeemed_at = CURRENT_TIMESTAMP
WHERE id = $1`. Returns the redeemed row together with the updated state. -/
def redeemReward (db : DB) (now : Int) (userId rewardCode : String) :
    Except Err (RewardRow × DB) :=
  match findReward db userId rewardCode with
  | none => .error (.notFound "Reward not found")
  | some reward =>
    if reward.is_redeemed then
      .error (.conflict "Reward has already been redeemed")
    else if reward.expires_at < now then
      .error (.gone "Reward has expired")
    else
      .ok ({ reward with is_redeemed := true, redeemed_at := some now },
           { db with
             rewards := db.rewards.map fun r =>
               if r.id == reward.id then
                 { r with is_redeemed := true, redeemed_at := some now }
               else r })

/-- `UserService.createReward(userId, taskId)` (users/service.js lines
279-330). `generatedCode` is the single output of `generateRewardCode()`
(line 661-666: prefix + time-based + random suffix, drawn once), `newId` the
uuid of the inserted row, `envExpiryDays` the parsed
`process.env.REWARD_EXPIRY_DAYS` (`parseInt(...) || 30`, so absent — and a
parsed 0 — falls back to 30). The `INSERT` hits the `UNIQUE` constraint on
`user_rewards.reward_code` when the generated code already exists; the
raised error propagates out of `createReward`, which contains no retry. -/
def createReward (db : DB) (now : Int) (userId taskId : String)
    (generatedCode newId : String) (envExpiryDays : Option Int) :
    Except Err (RewardRow × DB) :=
  if db.rewards.any (fun r => r.user_id == userId && r.task_id == taskId) then
    .error (.conflict "Reward already exists for this task")
  else
    match db.tasks.find? (fun t => t.id == taskId) with
    | none => .error (.notFound "Task not found")
    | some task =>
      let expiryDays : Int :=
        match envExpiryDays with
        | some d => if d = 0 then 30 else d
        | none => 30
      let row : RewardRow :=
        { id := newId
          user_id := userId
          task_id := taskId
          reward_code := generatedCode
          reward_type := task.reward_type
          reward_value := task.reward_value
          is_redeemed := false
          redeemed_at := none
          expires_at := now + expiryDays * 24 * 60 * 60 * 1000 }
      if db.rewards.any (fun r => r.reward_code == generatedCode) then
        .error (.dbUnique "user_rewards_reward_code_key")
      else
        .ok (row, { db with rewards := db.rewards ++ [row] })

/-- The task payload destructured at the top of `createTask`
(service.js lines 21-32). `image_file` is the optional base64 payload;
`reward_value` is already numeric (the service applies `parseFloat`). -/
structure TaskData where
  title : String
  description : Option String
  task_type : String
  difficulty : String
  reward_type : String
  reward_value : ℚ
  reward_description : String
  image_file : Option String
deriving DecidableEq

/-- The enumerations checked by `validateTaskData` (service.js lines 599-610). -/
def validTaskTypes : List String :=
  ["image-puzzle", "spot-diff", "speed-challenge", "meme", "logic"]

def validDifficulties : List String := ["easy", "medium", "hard", "expert"]

def validRewardTypes : List String := ["discount", "coupon", "points", "cashback"]

/-- `TaskService.validateTaskData(taskData)` (service.js lines 580-627).
`maxReward` is the parsed `MAX_TASK_REWARD_VALUE` environment value with
default 10000; the message for exceeding it interpolates the bound in the
source and is abbreviated here. -/
def validateTaskData (maxReward : ℚ) (d : TaskData) : Except Err Unit :=
  if d.title.trim.length < 3 || d.title.trim.length > 100 then
    .error (.validation "Title must be between 3 and 100 characters")
  else if (match d.description with | some s => decide (s.length > 1000) | none => false) then
    .error (.validation "Description must be less than 1000 characters")
  else if !(validTaskTypes.contains d.task_type) then
    .error (.validation "Invalid task type")
  else if !(validDifficulties.contains d.difficulty) then
    .error (.validation "Invalid difficulty level")
  else if !(validRewardTypes.contains d.reward_type) then
    .error (.validation "Invalid reward type")
  else if d.reward_value ≤ 0 then
    .error (.validation "Reward value must be a positive number")
  else if d.reward_value > maxReward then
    .error (.validation "Reward value cannot exceed the configured maximum")
  else if d.reward_description.trim.length < 10 || d.reward_description.trim.length > 255 then
    .error (.validation "Reward description must be between 10 and 255 characters")
  else
    .ok ()

/-- `TaskService.createTask(companyId, taskData)` (service.js lines 21-103):
validates the payload, rejects a duplicate title for the company
(case-insensitive), and — when an image is supplied — calls
`generateImagePuzzle` with `getGridSizeFromDifficulty(difficulty)` (lines
54-58), converting any generation failure into a single `ValidationError`
(line 62, message abbreviated: the source text names JPEG/PNG and the 5MB
bound). Inserts the row with status `draft`; a trimmed-empty description is
stored as NULL (`description?.trim() || null`). -/
def createTask (db : DB) (env : PuzzleEnv) (maxReward : ℚ)
    (newId companyId : String) (d : TaskData) : Except Err (TaskRow × DB) :=
  match validateTaskData maxReward d with
  | .error err => .error err
  | .ok _ =>
    if db.tasks.any (fun t =>
        t.company_id == companyId && t.title.toLower == d.title.trim.toLower) then
      .error (.conflict "Task with this title already exists for your company")
    else
      let generated : Except Err (Option PuzzleConfig) :=
        match d.image_file with
        | some _ =>
          match getGridSizeFromDifficulty d.difficulty with
          | .num g =>
            match generateImagePuzzle env g with
            | .error _ => .error (.validation "Failed to process image")
            | .ok cfg => .ok (some cfg)
          | .inherited _ =>
            -- a non-numeric grid size fails the `[9,16,25].includes` guard
            -- inside `generateImagePuzzle`; the catch of service.js line 60
            -- converts that failure into the same single ValidationError
            .error (.validation "Failed to process image")
        | none => .ok none
      match generated with
      | .error err => .error err
      | .ok cfg? =>
        let row : TaskRow :=
          { id := newId
            company_id := companyId
            title := d.title.trim
            description :=
              match d.description with
              | some s => if s.trim = "" then none else some s.trim
              | none => none
            task_type := d.task_type
            difficulty := d.difficulty
            reward_type := d.reward_type
            reward_value := d.reward_value
            reward_description := d.reward_description.trim
            image_url := cfg?.map PuzzleConfig.image_url
            puzzle_config := cfg?
            status := "draft"
            attempt_count := 0
            conversion_count := 0
            expires_at := none }
        .ok (row, { db with tasks := db.tasks ++ [row] })

/-! ### Concrete fixtures used by witnesses and counterexamples -/

/-- A concrete puzzle environment: valid image, trivial hash and shuffle. -/
def envW : PuzzleEnv :=
  { validImage := true
    imageKey := "k.jpg"
    cdnUrl := "https://cdn.taskloot.com"
    pieceHash := fun _ _ => "h"
    shuffle := fun l => l
    difficultySeed := "medium"
    nowMs := 0 }

/-- A concrete stored puzzle config whose `correct_solution` is present. -/
def cfgW : PuzzleConfig :=
  { image_url := "https://cdn.taskloot.com/k.jpg"
    grid_size := 3
    piece_count := 9
    pieces := [⟨0, "h"⟩, ⟨1, "h"⟩, ⟨2, "h"⟩]
    shuffled_order := [2, 0, 1]
    difficulty_seed := "medium"
    correct_solution := some [0, 1, 2]
    created_at := 0
    expires_at := 86400000 }

/-- A concrete active task that carries `cfgW`. -/
def taskW : TaskRow :=
  { id := "t1"
    company_id := "c1"
    title := "Pizza Puzzle"
    description := none
    task_type := "image-puzzle"
    difficulty := "easy"
    reward_type := "discount"
    reward_value := 20
    reward_description := "Twenty percent off"
    image_url := some "https://cdn.taskloot.com/k.jpg"
    puzzle_config := some cfgW
    status := "active"
    attempt_count := 0
    conversion_count := 0
    expires_at := none }

/-- A database holding exactly `taskW`. -/
def dbW : DB := { tasks := [taskW], attempts := [], rewards := [] }

/-- A successful attempt payload. -/
def attemptW : AttemptData :=
  { is_successful := true, time_taken_seconds := 45, difficulty_multiplier := none }

/-- An issued, unredeemed reward whose code is `TLOLDCODE`. -/
def rewardW : RewardRow :=
  { id := "r1"
    user_id := "u1"
    task_id := "t1"
    reward_code := "TLOLDCODE"
    reward_type := "discount"
    reward_value := 20
    is_redeemed := false
    redeemed_at := none
    expires_at := 10000000 }

/-- A database for the reward-issuance scenario: task `t2` exists, the code
`TLOLDCODE` is already taken by `rewardW`, and user `u2` has no reward for
`t2` yet. -/
def dbC6 : DB :=
  { tasks := [{ taskW with id := "t2" }], attempts := [], rewards := [rewardW] }

/-! ### Helper lemmas -/

/-- Row-major enumeration over an `m × n` grid lists exactly the indices
`0, …, m*n - 1` in order. -/
lemma flatMap_range_rowMajor (m n : Nat) :
    ((List.range m).flatMap fun r => (List.range n).map fun c => r * n + c) =
      List.range (m * n) := by
  induction m with
  | zero => simp
  | succ k ih =>
    rw [List.range_succ, List.flatMap_append, ih, Nat.succ_mul, List.range_add]
    simp

/-- The indices of the sliced pieces are `0, …, n*n - 1` in order. -/
lemma slicePieces_map_index (h : Nat → Nat → String) (n : Nat) :
    (slicePieces h n).map Piece.index = List.range (n * n) := by
  rw [← flatMap_range_rowMajor n n]
  simp [slicePieces, List.map_flatMap, List.map_map]
  rfl

/-- Slicing an `n × n` grid yields `n * n` pieces. -/
lemma slicePieces_length (h : Nat → Nat → String) (n : Nat) :
    (slicePieces h n).length = n * n := by
  have hlen := congrArg List.length (slicePieces_map_index h n)
  simpa using hlen

/-! ### Claims -/

/-- C9: for every requested grid size in {9,16,25}, the slicing step of
`generateImagePuzzle` produces exactly `gridSize` pieces, enumerated in
row-major order with piece indices `row * side + col` (i.e. `0, …,
gridSize-1` in order), and those are exactly the pieces of the returned
config; for every grid size outside {9,16,25} the call fails with
`ValidationError` before any piece is produced. -/
theorem slicePieces_rowMajor_spec (env : PuzzleEnv) (g gBad : Nat)
    (hg : g = 9 ∨ g = 16 ∨ g = 25) (hBad : ¬(gBad = 9 ∨ gBad = 16 ∨ gBad = 25)) :
    (slicePieces env.pieceHash (Nat.sqrt g)).length = g ∧
    (slicePieces env.pieceHash (Nat.sqrt g)).map Piece.index = List.range g ∧
    (∀ cfg, generateImagePuzzle env g = .ok cfg →
      cfg.pieces = slicePieces env.pieceHash (Nat.sqrt g)) ∧
    generateImagePuzzle env gBad =
      .error (.validation "Grid size must be 9, 16, or 25") := by
  have hsq : Nat.sqrt g * Nat.sqrt g = g := by
    rcases hg with rfl | rfl | rfl <;> norm_num
  have hok : gridSizeOk g = true := by
    rcases hg with rfl | rfl | rfl <;> decide
  have hbad : gridSizeOk gBad = false := by
    push_neg at hBad
    simp [gridSizeOk, hBad.1, hBad.2.1, hBad.2.2]
  refine ⟨?_, ?_, ?_, ?_⟩
  · rw [slicePieces_length, hsq]
  · rw [slicePieces_map_index, hsq]
  · intro cfg hcfg
    simp only [generateImagePuzzle, hok, Bool.not_true, Bool.false_eq_true,
      if_false] at hcfg
    rcases hv : env.validImage with _ | _
    · simp [hv] at hcfg
    · simp only [hv, Bool.not_true, Bool.false_eq_true, if_false,
        Except.ok.injEq] at hcfg
      subst hcfg
      rfl
  · simp [generateImagePuzzle, hbad]

/-- C9 witness: the spec instantiated at grid size 9 (valid) and 7
(invalid) in the concrete environment `envW`. -/
theorem slicePieces_rowMajor_spec_witness :
    (slicePieces envW.pieceHash (Nat.sqrt 9)).length = 9 ∧
    generateImagePuzzle envW 7 =
      .error (.validation "Grid size must be 9, 16, or 25") := by
  have h := slicePieces_rowMajor_spec envW 9 7 (by decide) (by decide)
  exact ⟨h.1, h.2.2.2⟩

/-- C8 counterexample: the claim says the returned config's `grid_size`
field lies in {9,16,25}; but `generateImagePuzzle` stores
`grid_size: piecesPerSide`, so a successful call with requested grid size 9
returns `grid_size = 3`, which is not in {9,16,25}. -/
theorem generateImagePuzzle_grid_size_cex :
    ∃ cfg, generateImagePuzzle envW 9 = .ok cfg ∧ cfg.grid_size = 3 ∧
      ¬(cfg.grid_size = 9 ∨ cfg.grid_size = 16 ∨ cfg.grid_size = 25) := by
  have h3 : Nat.sqrt 9 = 3 := by norm_num
  refine ⟨_, rfl, h3, ?_⟩
  intro hcontra
  rcases hcontra with h | h | h <;> exact absurd (h3.symm.trans h) (by decide)

/-- C8 (amended): for every successful `generateImagePuzzle` call with
requested grid size in {9,16,25}, the returned config's `grid_size` field is
the side length `√gridSize`, an element of {3,4,5}; the requested total
piece count is recorded in `piece_count`, an element of {9,16,25}. -/
theorem generateImagePuzzle_grid_size_side (env : PuzzleEnv) (g : Nat)
    (hg : g = 9 ∨ g = 16 ∨ g = 25) (cfg : PuzzleConfig)
    (hok : generateImagePuzzle env g = .ok cfg) :
    cfg.grid_size = Nat.sqrt g ∧
    (cfg.grid_size = 3 ∨ cfg.grid_size = 4 ∨ cfg.grid_size = 5) ∧
    cfg.piece_count = g ∧
    (cfg.piece_count = 9 ∨ cfg.piece_count = 16 ∨ cfg.piece_count = 25) := by
  have hgOk : gridSizeOk g = true := by
    rcases hg with rfl | rfl | rfl <;> decide
  simp only [generateImagePuzzle, hgOk, Bool.not_true, Bool.false_eq_true,
    if_false] at hok
  rcases hv : env.validImage with _ | _
  · simp [hv] at hok
  · simp only [hv, Bool.not_true, Bool.false_eq_true, if_false,
      Except.ok.injEq] at hok
    subst hok
    refine ⟨rfl, ?_, rfl, hg⟩
    rcases hg with rfl | rfl | rfl <;> norm_num

/-- C8 witness: the amended claim instantiated at `envW` and grid size 9. -/
theorem generateImagePuzzle_grid_size_side_witness :
    ∃ cfg, generateImagePuzzle envW 9 = .ok cfg ∧ cfg.grid_size = Nat.sqrt 9 := by
  refine ⟨_, rfl, ?_⟩
  exact (generateImagePuzzle_grid_size_side envW 9 (by decide) _ rfl).1

/-- C10 counterexample: the claim says every input other than the four
difficulties maps to the default 16; but `gridSizes["constructor"]` resolves
through the prototype chain to `Object.prototype.constructor`, a truthy
function, so `|| 16` does not fire and the result is that inherited member,
not the number 16. -/
theorem getGridSizeFromDifficulty_prototype_cex :
    getGridSizeFromDifficulty "constructor" = .inherited "constructor" ∧
    getGridSizeFromDifficulty "constructor" ≠ .num 16 := by
  exact ⟨rfl, by decide⟩

/-- C10 (amended): `getGridSizeFromDifficulty` maps easy↦9, medium↦16,
hard↦25, expert↦25, and every other input to the default 16 except keys
naming `Object.prototype` members, which return the inherited truthy
non-numeric value. The four difficulties admitted by `validateTaskData` all
yield a number accepted by the grid-size guard, so every puzzle generated
through `createTask` requests a grid size in {9,16,25} and the
`ValidationError` branch for invalid grid sizes in `generateImagePuzzle` is
unreachable from `createTask`. -/
theorem getGridSizeFromDifficulty_amended :
    getGridSizeFromDifficulty "easy" = .num 9 ∧
    getGridSizeFromDifficulty "medium" = .num 16 ∧
    getGridSizeFromDifficulty "hard" = .num 25 ∧
    getGridSizeFromDifficulty "expert" = .num 25 ∧
    (∀ d, d = "easy" ∨ d = "hard" ∨ d = "expert" ∨ d ∈ objectPrototypeKeys ∨
      getGridSizeFromDifficulty d = .num 16) ∧
    (∀ d, d ∈ validDifficulties →
      ∃ g, getGridSizeFromDifficulty d = .num g ∧ gridSizeOk g = true) ∧
    (∀ env d g, d ∈ validDifficulties → getGridSizeFromDifficulty d = .num g →
      generateImagePuzzle env g ≠
        .error (.validation "Grid size must be 9, 16, or 25")) := by
  refine ⟨rfl, rfl, rfl, rfl, ?_, ?_, ?_⟩
  · intro d
    unfold getGridSizeFromDifficulty
    split
    · simp_all
    · simp_all
    · simp_all
    · simp_all
    · by_cases hc : d ∈ objectPrototypeKeys <;> simp [hc]
  · intro d hd
    simp only [validDifficulties, List.mem_cons, List.mem_singleton,
      List.not_mem_nil, or_false] at hd
    rcases hd with rfl | rfl | rfl | rfl <;> exact ⟨_, rfl, rfl⟩
  · intro env d g hd hg hcontra
    have hok : gridSizeOk g = true := by
      simp only [validDifficulties, List.mem_cons, List.mem_singleton,
        List.not_mem_nil, or_false] at hd
      rcases hd with rfl | rfl | rfl | rfl <;>
        (cases hg; decide)
    simp only [generateImagePuzzle, hok, Bool.not_true, Bool.false_eq_true,
      if_false] at hcontra
    rcases hv : env.validImage with _ | _ <;> simp [hv] at hcontra

/-- C10 witness: the amended spec instantiated at the admitted difficulty
string easy. -/
theorem getGridSizeFromDifficulty_amended_witness :
    "easy" ∈ validDifficulties ∧
    ∃ g, getGridSizeFromDifficulty "easy" = .num g ∧ gridSizeOk g = true := by
  exact ⟨by decide,
    getGridSizeFromDifficulty_amended.2.2.2.2.2.1 "easy" (by decide)⟩

/-- C7 counterexample: the claim says that same-length arrays drawn from
different index sets raise `ValidationError`; but `validateSolution` only
checks array-ness and length, so `[0,1]` against stored `[2,3]` is scored as
an ordinary incorrect solution instead of raising. -/
theorem validateSolution_mismatched_sets_cex :
    validateSolution (.arr [0, 1]) (.arr [2, 3]) 0 =
      .ok { is_correct := false, score := 0, time_bonus := 0, base_score := none,
            time_taken_seconds := none,
            error := some "Puzzle arrangement is incorrect" } := by
  rfl

/-- C7 (amended): `validateSolution` raises `ValidationError` exactly when
the two inputs are not both arrays of the same length; same-length arrays
over different index sets are not rejected but scored as an incorrect
solution. -/
theorem validateSolution_validation_iff (u c : JsArg) (t : ℚ) :
    (∃ msg, validateSolution u c t = .error (.validation msg)) ↔
      ¬∃ us cs, u = JsArg.arr us ∧ c = JsArg.arr cs ∧ us.length = cs.length := by
  cases u with
  | nonArray => simp [validateSolution]
  | arr us =>
    cases c with
    | nonArray => simp [validateSolution]
    | arr cs =>
      by_cases hlen : us.length = cs.length
      · by_cases he : us = cs <;> simp [validateSolution, hlen, he]
      · simp [validateSolution, hlen]

/-- C3: for equal-length integer arrays, `validateSolution` returns
`is_correct = true` with `score = 100 + timeBonus` (hence `score ≥ 100`)
exactly when the orderings coincide, and `is_correct = false` with
`score = 0` otherwise; the bonus equals
`⌊50 * max 0 ((300 - elapsed_seconds) / 300)⌋`, is 50 at elapsed 0,
vanishes from 300 s on, and is monotonically non-increasing in the elapsed
time. -/
theorem validateSolution_scoring (us cs : List Int)
    (hlen : us.length = cs.length) (t : ℚ) :
    (us = cs →
      validateSolution (.arr us) (.arr cs) t =
        .ok { is_correct := true, score := 100 + timeBonus t,
              time_bonus := timeBonus t, base_score := some 100,
              time_taken_seconds := some (t / 1000), error := none } ∧
      100 ≤ 100 + timeBonus t) ∧
    (us ≠ cs →
      validateSolution (.arr us) (.arr cs) t =
        .ok { is_correct := false, score := 0, time_bonus := 0,
              base_score := none, time_taken_seconds := none,
              error := some "Puzzle arrangement is incorrect" }) ∧
    timeBonus t = ⌊50 * max 0 ((300 - t / 1000) / 300)⌋ ∧
    timeBonus 0 = 50 ∧
    (300 ≤ t / 1000 → timeBonus t = 0) ∧
    (∀ t2, t ≤ t2 → timeBonus t2 ≤ timeBonus t) := by
  refine ⟨?_, ?_, ?_, ?_, ?_, ?_⟩
  · intro he
    subst he
    refine ⟨by simp [validateSolution], ?_⟩
    have hnn : (0 : ℤ) ≤ timeBonus t := by
      apply Int.floor_nonneg.mpr
      have h0 : (0 : ℚ) ≤ max 0 ((300 - t / 1000) / 300) := le_max_left 0 _
      positivity
    omega
  · intro hne
    simp [validateSolution, hlen, hne]
  · rw [timeBonus, mul_comm]
  · norm_num [timeBonus]
  · intro h
    have hx : (300 - t / 1000) / 300 ≤ 0 := by linarith
    rw [timeBonus, max_eq_left hx, zero_mul, Int.floor_zero]
  · intro t2 ht
    apply Int.floor_le_floor
    apply mul_le_mul_of_nonneg_right _ (by norm_num : (0 : ℚ) ≤ 50)
    apply max_le_max le_rfl
    have : t / 1000 ≤ t2 / 1000 := by linarith
    linarith

/-- C3 witness: the scoring spec instantiated at the identical orderings
`[0,1,2]` and elapsed time 0. -/
theorem validateSolution_scoring_witness :
    ([0, 1, 2] : List Int).length = ([0, 1, 2] : List Int).length ∧
    validateSolution (.arr [0, 1, 2]) (.arr [0, 1, 2]) 0 =
      .ok { is_correct := true, score := 100 + timeBonus 0,
            time_bonus := timeBonus 0, base_score := some 100,
            time_taken_seconds := some (0 / 1000), error := none } := by
  exact ⟨rfl, ((validateSolution_scoring [0, 1, 2] [0, 1, 2] rfl 0).1 rfl).1⟩

/-- C1: whatever task `getTask` returns — read through the cache or the
store — its `puzzle_config`, when present, has no `correct_solution` entry:
the stored solution is stripped before the task reaches the caller. -/
theorem getTask_strips_correct_solution (db : DB) (cache : Option TaskRow)
    (taskId : String) (t : TaskRow) (h : getTask db cache taskId = .ok t) :
    ∀ pc, t.puzzle_config = some pc → pc.correct_solution = none := by
  intro pc hpc
  simp only [getTask] at h
  split at h
  · exact absurd h (by simp)
  · split at h
    · rename_i pc0 hpc0
      simp only [Except.ok.injEq] at h
      subst h
      simp only [Option.some.injEq] at hpc
      subst hpc
      rfl
    · rename_i hnone
      simp only [Except.ok.injEq] at h
      subst h
      rw [hnone] at hpc
      exact absurd hpc (by simp)

/-- C1 witness: reading the concrete task `taskW` (whose stored config holds
`correct_solution = some [0,1,2]`) through `getTask` yields the redacted
config. -/
theorem getTask_strips_correct_solution_witness :
    getTask dbW none "t1" =
      .ok { taskW with puzzle_config := some { cfgW with correct_solution := none } } ∧
    ({ cfgW with correct_solution := none } : PuzzleConfig).correct_solution = none := by
  refine ⟨rfl, ?_⟩
  exact getTask_strips_correct_solution dbW none "t1" _ rfl _ rfl

/-- C2: `recordAttempt` fails with `ConflictError` exactly when an attempt
row for (task, user) already exists; with `NotFoundError` exactly when no
prior attempt exists and no active task row matches the id; with `GoneError`
exactly when additionally the matched active task has an `expires_at` in the
past; it succeeds exactly when none of these hold (conditions checked in
this order), and then the single inserted row is the new attempt. The
success post-state is the trigger-inclusive insert followed by the
application's counter update. -/
theorem recordAttempt_guards (db : DB) (now : Int) (tid uid : String)
    (a : AttemptData) :
    (recordAttempt db now tid uid a =
        .error (.conflict "You have already attempted this task") ↔
      hasAttempt db tid uid = true) ∧
    (recordAttempt db now tid uid a =
        .error (.notFound "Task not found or not active") ↔
      hasAttempt db tid uid = false ∧ findActiveTask db tid = none) ∧
    (recordAttempt db now tid uid a = .error (.gone "Task has expired") ↔
      hasAttempt db tid uid = false ∧
        ∃ task e, findActiveTask db tid = some task ∧
          task.expires_at = some e ∧ e < now) ∧
    ((∃ row db2, recordAttempt db now tid uid a = .ok (row, db2)) ↔
      hasAttempt db tid uid = false ∧
        ∃ task, findActiveTask db tid = some task ∧
          ∀ e, task.expires_at = some e → now ≤ e) ∧
    (∀ row db2, recordAttempt db now tid uid a = .ok (row, db2) →
      row = mkAttemptRow now tid uid a ∧
      db2 = bumpTaskCounters (insertAttempt db row) tid a.is_successful ∧
      db2.attempts = db.attempts ++ [mkAttemptRow now tid uid a]) := by
  by_cases hA : hasAttempt db tid uid
  · simp [recordAttempt, recordAttemptChecks, hA]
  · rcases hT : findActiveTask db tid with _ | task
    · simp [recordAttempt, recordAttemptChecks, hA, hT]
    · rcases hE : task.expires_at with _ | e
      · simp [recordAttempt, recordAttemptChecks, hA, hT, hE,
          insertAttempt, bumpTaskCounters]
      · by_cases hlt : e < now
        · simp [recordAttempt, recordAttemptChecks, hA, hT, hE, hlt]
        · simp [recordAttempt, recordAttemptChecks, hA, hT, hE, hlt,
            insertAttempt, bumpTaskCounters]
          all_goals omega

/-- C4: `redeemReward` fails with `NotFoundError` exactly when no reward
matches (code, user) — in particular when the code belongs to another
user —, with `ConflictError` exactly when the matched reward is already
redeemed, with `GoneError` exactly when it is unredeemed but past its
expiry; on success it flips `is_redeemed` and stamps `redeemed_at` on the
matched row and touches nothing else. Every error case returns no new
state, so the stored rewards are untouched there. -/
theorem redeemReward_spec (db : DB) (now : Int) (uid code : String) :
    (redeemReward db now uid code = .error (.notFound "Reward not found") ↔
      findReward db uid code = none) ∧
    (redeemReward db now uid code =
        .error (.conflict "Reward has already been redeemed") ↔
      ∃ r, findReward db uid code = some r ∧ r.is_redeemed = true) ∧
    (redeemReward db now uid code = .error (.gone "Reward has expired") ↔
      ∃ r, findReward db uid code = some r ∧ r.is_redeemed = false ∧
        r.expires_at < now) ∧
    (∀ r db2, redeemReward db now uid code = .ok (r, db2) →
      ∃ r0, findReward db uid code = some r0 ∧ r0.is_redeemed = false ∧
        now ≤ r0.expires_at ∧
        r = { r0 with is_redeemed := true, redeemed_at := some now } ∧
        db2.rewards = db.rewards.map fun x =>
          if x.id == r0.id then { x with is_redeemed := true, redeemed_at := some now }
          else x) := by
  rcases hF : findReward db uid code with _ | r0
  · simp [redeemReward, hF]
  · by_cases hR : r0.is_redeemed
    · simp [redeemReward, hF, hR]
    · by_cases hX : r0.expires_at < now
      · simp [redeemReward, hF, hR, hX]
      · simp [redeemReward, hF, hR, hX]
        omega

/-- C4 witness: redeeming `rewardW` (owned by user u1) with the right code
but user u2 yields `NotFoundError`, by the not-found characterization. -/
theorem redeemReward_spec_witness :
    redeemReward dbC6 0 "u2" "TLOLDCODE" = .error (.notFound "Reward not found") := by
  exact ((redeemReward_spec dbC6 0 "u2" "TLOLDCODE").1).mpr (by decide)

/-- C5 (code bug exhibit): starting from the consistent state `dbW`, a
successful `recordAttempt` commits two states. The attempt `INSERT` commits
with the schema trigger's counter increment, so the intermediate state is
still consistent; but the application's separate `UPDATE tasks` (service.js
554-561) then repeats the increment, so the final state counts the single
attempt row twice (`attempt_count = conversion_count = 2` against one row)
and the counter invariant the claim asserts is permanently violated. -/
theorem recordAttempt_counter_drift :
    countsConsistent dbW = true ∧
    ∃ afterInsert afterUpdate,
      recordAttemptCommits dbW 1000 "t1" "u1" attemptW =
        .ok [afterInsert, afterUpdate] ∧
      countsConsistent afterInsert = true ∧
      countsConsistent afterUpdate = false ∧
      afterUpdate.tasks.map TaskRow.attempt_count = [2] ∧
      afterUpdate.tasks.map TaskRow.conversion_count = [2] ∧
      (attemptsFor afterUpdate "t1").length = 1 := by
  exact ⟨by decide, _, _, rfl, by decide, by decide, by decide, by decide, by decide⟩

/-- C6 (code bug exhibit): `createReward` draws a single reward code; when
that code collides with an existing one (`TLOLDCODE` held by `rewardW`) the
`UNIQUE` violation from the insert propagates and no regeneration is
attempted — the identical call with a fresh code succeeds, with
`expires_at` = issuance time + default 30-day window. -/
theorem createReward_collision_no_retry :
    createReward dbC6 0 "u2" "t2" "TLOLDCODE" "r2" none =
      .error (.dbUnique "user_rewards_reward_code_key") ∧
    ∃ row db2,
      createReward dbC6 0 "u2" "t2" "TLNEWCODE" "r2" none = .ok (row, db2) ∧
      row.reward_code = "TLNEWCODE" ∧
      row.expires_at = 30 * 24 * 60 * 60 * 1000 := by
  refine ⟨rfl, _, _, rfl, rfl, by decide⟩

/-- C2 witness: recording an attempt against an empty store fails with
`NotFoundError`, by the not-found characterization of the guard spec. -/
theorem recordAttempt_guards_witness :
    recordAttempt { tasks := [], attempts := [], rewards := [] } 0 "t1" "u1" attemptW =
      .error (.notFound "Task not found or not active") := by
  exact ((recordAttempt_guards { tasks := [], attempts := [], rewards := [] }
    0 "t1" "u1" attemptW).2.1).mpr (by decide)

/-- C7 witness: a non-array second argument raises `ValidationError`, by the
amended characterization. -/
theorem validateSolution_validation_iff_witness :
    ∃ msg, validateSolution (.arr [0]) .nonArray 0 = .error (.validation msg) := by
  exact (validateSolution_validation_iff (.arr [0]) .nonArray 0).mpr (by simp)

end Lootloo
